import Mathlib

/-!
Verification development for the templess repository (Rust).

This file gives a shallow embedding, in Lean 4, of the parts of the
program that the verified properties talk about:

* `src/clingo/symbol.rs` — the `Symbol` value type and its accessors;
* `src/clingo/error.rs` — the `ClingoError` taxonomy;
* `src/clingo/solve_result.rs` and `src/clingo/solve_handle.rs` — result
  bit flags and their decoding in `SolveHandle::get`;
* `src/clingo/control.rs` — `Control::load` (NUL rejection) and
  `Control::solve` (callback-style, blocking);
* `src/core/domain/{item_slot,item,template,class}.rs` — the domain data;
* `src/optimization/instance.rs` — `slot_atoms`;
* `src/optimization/worker.rs` — `chosen_items_from_model`,
  `run_optimization_logic` and `start_optimization_worker`.

Native clingo engine behaviour (success or failure of each native call,
the models delivered by a running search, and the values of the shared
atomic stop flag at each observation point) is supplied through explicit
oracle parameters, so every definition stays executable.
-/

namespace Templess

/-- The type of a clingo symbol, mirroring `SymbolType` in
`src/clingo/symbol.rs` (native codes 0, 1, 4, 5, 7, plus `Unknown` for
unrecognized codes). -/
inductive SymbolType where
  | infimum
  | number
  | string
  | function
  | supremum
  | unknown
deriving DecidableEq, Repr

/-- A clingo symbol value, mirroring the variants that
`Symbol::kind` in `src/clingo/symbol.rs` distinguishes.  The Rust type
wraps an opaque native handle; the embedding carries the decoded payload
directly: a number symbol its `i32` value, a string symbol its text, a
function symbol its name and ordered arguments.  `unknown` stands for a
symbol whose native type code is unrecognized. -/
inductive Symbol where
  | infimum
  | num (val : Int)
  | str (text : String)
  | func (name : String) (args : List Symbol)
  | supremum
  | unknown
deriving Repr

/-- Accessor `Symbol::kind` from `src/clingo/symbol.rs`: classify the symbol. -/
def Symbol.kind : Symbol → SymbolType
  | .infimum => SymbolType.infimum
  | .num _ => SymbolType.number
  | .str _ => SymbolType.string
  | .func _ _ => SymbolType.function
  | .supremum => SymbolType.supremum
  | .unknown => SymbolType.unknown

/-- The error taxonomy of `src/clingo/error.rs` (`ClingoError`).
`nulError` corresponds to `ClingoError::NulError(e)`; the wrapped
`std::ffi::NulError` payload (position of the first NUL byte) is elided
because no verified property inspects it.  `internal` corresponds to
`ClingoError::Internal`; the engine-supplied `internal_code` and
`internal_message` fields are elided for the same reason, keeping only
the context `message`. -/
inductive ClingoError where
  | nulError
  | internal (message : String)
  | bindings (message : String)
  | typeError (message : String)
deriving DecidableEq, Repr

/-- The `Display` implementation for `ClingoError` in
`src/clingo/error.rs`, restricted to the components kept by the
embedding (the elided engine-supplied parts of the `NulError` and
`Internal` renderings are dropped from the rendered text as well). -/
def ClingoError.toString : ClingoError → String
  | .nulError => "NulError: nul byte found in provided data"
  | .internal message => "Internal error: " ++ message
  | .bindings message => "Bindings error: " ++ message
  | .typeError message => "Type error: " ++ message

/-- Accessor `Symbol::number` from `src/clingo/symbol.rs`: fails with a type
error unless the symbol's kind is `Number`.  For a genuine number
symbol the native retrieval `clingo_symbol_number` always succeeds, so
the value model has no failure branch there. -/
def Symbol.number : Symbol → Except ClingoError Int
  | .num val => Except.ok val
  | _ => Except.error (ClingoError.typeError "Symbol is not a number")

/-- Accessor `Symbol::name` from `src/clingo/symbol.rs`: fails with a type error
unless the symbol's kind is `Function`.  An anonymous function carries
the empty string as its name (the null-pointer branch of the source). -/
def Symbol.name : Symbol → Except ClingoError String
  | .func n _ => Except.ok n
  | _ => Except.error (ClingoError.typeError "Symbol is not a function")

/-- Accessor `Symbol::arguments` from `src/clingo/symbol.rs`: fails with a type
error unless the symbol's kind is `Function`; zero arguments yield the
empty list (the `size == 0` branch of the source). -/
def Symbol.arguments : Symbol → Except ClingoError (List Symbol)
  | .func _ args => Except.ok args
  | _ => Except.error (ClingoError.typeError "Symbol is not a function")

/-- The `ItemSlot` enumeration from `src/core/domain/item_slot.rs`,
with the same 18 variants. -/
inductive ItemSlot where
  | Head
  | Hands
  | Feet
  | Chest
  | Legs
  | Arms
  | Jewel
  | Cloak
  | Necklace
  | Belt
  | Bracer
  | Bracer2
  | Ring
  | Ring2
  | RightHand
  | LeftHand
  | TwoHanded
  | Ranged
deriving DecidableEq, Repr

/-- Accessor `ItemSlot::id` from `src/core/domain/item_slot.rs`: the `u16`
discriminant of each variant, widened to `i32`. -/
def ItemSlot.id : ItemSlot → Int
  | .Head => 21
  | .Hands => 22
  | .Feet => 23
  | .Chest => 25
  | .Legs => 27
  | .Arms => 28
  | .Jewel => 24
  | .Cloak => 26
  | .Necklace => 29
  | .Belt => 32
  | .Bracer => 33
  | .Bracer2 => 34
  | .Ring => 35
  | .Ring2 => 36
  | .RightHand => 10
  | .LeftHand => 11
  | .TwoHanded => 12
  | .Ranged => 13

/-- Conversion `ItemSlot::from_repr` (the strum `FromRepr` derive in
`src/core/domain/item_slot.rs`): the variant with the given `u16`
discriminant, or `none`. -/
def ItemSlot.fromRepr : Nat → Option ItemSlot
  | 21 => some .Head
  | 22 => some .Hands
  | 23 => some .Feet
  | 25 => some .Chest
  | 27 => some .Legs
  | 28 => some .Arms
  | 24 => some .Jewel
  | 26 => some .Cloak
  | 29 => some .Necklace
  | 32 => some .Belt
  | 33 => some .Bracer
  | 34 => some .Bracer2
  | 35 => some .Ring
  | 36 => some .Ring2
  | 10 => some .RightHand
  | 11 => some .LeftHand
  | 12 => some .TwoHanded
  | 13 => some .Ranged
  | _ => none

/-- The Rust cast `slot_number as u16` applied to an `i32` value in
`src/optimization/worker.rs`: truncation to the low 16 bits of the
two's-complement representation, i.e. the Euclidean remainder
modulo 2^16. -/
def i32ToU16 (n : Int) : Nat := (n % 65536).toNat

/-- Modelled from the spec: `slot_atoms` in
`src/optimization/instance.rs` calls `slot.name()`, but no `name`
method for `ItemSlot` is defined under `src/`; the spec's fact table
(`slot(Id, Name)`) says the name is the slot's display name, so the
method is modelled after the `Display` implementation in
`src/core/domain/item_slot.rs`: `Ring2` renders as `"Ring"`, `Bracer2`
as `"Bracer"`, every other variant as its own name. -/
def ItemSlot.name : ItemSlot → String
  | .Head => "Head"
  | .Hands => "Hands"
  | .Feet => "Feet"
  | .Chest => "Chest"
  | .Legs => "Legs"
  | .Arms => "Arms"
  | .Jewel => "Jewel"
  | .Cloak => "Cloak"
  | .Necklace => "Necklace"
  | .Belt => "Belt"
  | .Bracer => "Bracer"
  | .Bracer2 => "Bracer"
  | .Ring => "Ring"
  | .Ring2 => "Ring"
  | .RightHand => "RightHand"
  | .LeftHand => "LeftHand"
  | .TwoHanded => "TwoHanded"
  | .Ranged => "Ranged"

/-- Modelled from the spec: `slot_atoms` iterates `ItemSlot::iter()`
(a strum `EnumIter`, absent from the `src/` copy of the enum); strum's
derived iterator yields every variant once in declaration order, which
is the order used here. -/
def ItemSlot.iter : List ItemSlot :=
  [.Head, .Hands, .Feet, .Chest, .Legs, .Arms, .Jewel, .Cloak, .Necklace,
   .Belt, .Bracer, .Bracer2, .Ring, .Ring2, .RightHand, .LeftHand,
   .TwoHanded, .Ranged]

/-- The `Class` enumeration from `src/core/domain/class.rs` (variant
names only; the numeric discriminants and the skill-line/acuity methods
are not used by any verified operation). -/
inductive Class where
  | Paladin | Armsman | Scout | Minstrel | Theurgist | Cleric | Wizard
  | Sorcerer | Infiltrator | Friar | Mercenary | Necromancer | Cabalist
  | Reaver | Heretic | Thane | Warrior | Shadowblade | Skald | Hunter
  | Healer | Spiritmaster | Shaman | Runemaster | Bonedancer | Berserker
  | Savage | Valkyrie | Warlock | Eldritch | Enchanter | Mentalist
  | Blademaster | Hero | Champion | Warden | Druid | Bard | Nightshade
  | Ranger | Animist | Valewalker | Banshee
deriving DecidableEq, Repr

/-- The `Item` entity from `src/core/domain/item.rs`, restricted to the
fields read by the verified operations (`id` for catalog lookup and
fact emission, `name` for identity in examples); the remaining fields
(levels, bonuses, utility floats, JSON blobs, …) are never inspected by
the code paths covered here. -/
structure Item where
  id : Int
  name : String
deriving DecidableEq, Repr

/-- The `Template` entity from `src/core/domain/template.rs`.  The
`HashMap<ItemSlot, Arc<Item>>` is embedded as a total lookup function
into `Option Item` (`ItemSlot` is finite, and `Arc` sharing is
irrelevant under value semantics).  The Rust field `class` is named
`charClass` here because `class` is a Lean keyword. -/
structure Template where
  name : String
  charClass : Class
  slots : ItemSlot → Option Item

/-- Operation `HashMap::insert` on a template's slot map
(`new_template.slots.insert(slot, item.clone())` in
`src/optimization/worker.rs`): point update of the lookup function. -/
def Template.insertSlot (t : Template) (slot : ItemSlot) (item : Item) : Template :=
  { t with slots := fun s => if s = slot then some item else t.slots s }

/-- The per-symbol loop of `chosen_items_from_model` in
`src/optimization/worker.rs` (lines 159–188), as structural recursion
over the symbol list.  Every `?`/`ok_or_else` early return becomes an
`Except.error` with the source's message (`anyhow` context for
`slot_symbol.number()` replaces the displayed message with
"Failed to parse slot ID"); the `Vec::push` accumulation becomes a cons
at the head of the recursive result, preserving order. -/
def chosenItemsAux : List Symbol → Except String (List (ItemSlot × Int))
  | [] => Except.ok []
  | symbol :: rest =>
    if symbol.kind ≠ SymbolType.function then
      chosenItemsAux rest
    else
      match symbol.name with
      | Except.error e => Except.error e.toString
      | Except.ok name =>
        if name ≠ "slot_chosen" then
          chosenItemsAux rest
        else
          match symbol.arguments with
          | Except.error e => Except.error e.toString
          | Except.ok arguments =>
            match arguments.head? with
            | none =>
              Except.error "Expected an argument for `slot` at index 0 in slot_chosen"
            | some slotSymbol =>
              match arguments.get? 1 with
              | none =>
                Except.error "Expected an argument for `item` at index 1 in slot_chosen"
              | some itemSymbol =>
                match slotSymbol.number with
                | Except.error _ => Except.error "Failed to parse slot ID"
                | Except.ok slotNumber =>
                  match ItemSlot.fromRepr (i32ToU16 slotNumber) with
                  | none =>
                    Except.error ("Invalid slot representation: " ++ ToString.toString slotNumber)
                  | some slot =>
                    match itemSymbol.number with
                    | Except.error e => Except.error e.toString
                    | Except.ok itemId =>
                      match chosenItemsAux rest with
                      | Except.error e => Except.error e
                      | Except.ok tail => Except.ok ((slot, itemId) :: tail)

/-- Function `chosen_items_from_model` from `src/optimization/worker.rs`
(lines 154–189).  The `Model` argument is a non-owning native view; it
enters the embedding as the outcome of its `model.symbols(2)` call
(the only thing the function reads from it), an `Except` because the
native enumeration itself can fail.  A `ClingoError` converts to the
`anyhow` error's display text, as at the `?` in the source. -/
def chosen_items_from_model (symbolsResult : Except ClingoError (List Symbol)) :
    Except String (List (ItemSlot × Int)) :=
  match symbolsResult with
  | Except.error e => Except.error e.toString
  | Except.ok symbols => chosenItemsAux symbols

/-- The template-merge loop of `run_optimization_logic` in
`src/optimization/worker.rs` (lines 116–122): starting from a clone of
the input template, look each chosen item id up in the candidate list
(`items.iter().find(|i| i.id == item_id)`) and insert it under its
slot; ids absent from the list are silently skipped. -/
def applyChosenItems (template : Template) (items : List Item)
    (chosen : List (ItemSlot × Int)) : Template :=
  chosen.foldl
    (fun current p =>
      match items.find? (fun i => i.id == p.2) with
      | some item => current.insertSlot p.1 item
      | none => current)
    template

/-- One line of generated ASP program text.  `slot_atoms` in
`src/optimization/instance.rs` builds a string with one `writeln!` per
line; the embedding records the sequence of written lines, each
carrying the formatted payload of the corresponding `writeln!`:
`comment` for the header line, `slot` for `slot({id},{name}).`,
`slotTaken` for `slot_taken({id}, {item.id}).`. -/
inductive AspAtom where
  | comment (text : String)
  | slot (slotId : Int) (slotName : String)
  | slotTaken (slotId : Int) (itemId : Int)
deriving DecidableEq, Repr

/-- The conditional `slot_taken` write of `slot_atoms`
(`if let Some(item) = template.slots.get(&slot)` in
`src/optimization/instance.rs`): one `slot_taken` line when the slot is
filled, nothing when it is empty. -/
def slotTakenPart (slotId : Int) (entry : Option Item) : List AspAtom :=
  match entry with
  | some item => [AspAtom.slotTaken slotId item.id]
  | none => []

/-- One iteration of the `for slot in ItemSlot::iter()` loop of
`slot_atoms`: the unconditional `slot` line followed by the conditional
`slot_taken` line. -/
def slotBlock (template : Template) (slot : ItemSlot) : List AspAtom :=
  AspAtom.slot slot.id slot.name :: slotTakenPart slot.id (template.slots slot)

/-- Function `slot_atoms` from `src/optimization/instance.rs` (lines 113–126):
the header comment, then for every slot kind in iteration order its
block.  The `writeln!` calls cannot fail when writing into a `String`,
so the source's `Result<String>` is always `Ok` and the embedding is
total. -/
def slot_atoms (template : Template) : List AspAtom :=
  AspAtom.comment "% --- TEMPLATE ---" ::
    (ItemSlot.iter.map (slotBlock template)).flatten

/-- The `SolveResult` bit set from `src/clingo/solve_result.rs`: a
`bitflags` wrapper around a `u32` bit pattern (embedded as `Nat`). -/
structure SolveResult where
  bits : Nat
deriving DecidableEq, Repr

/-- The clingo result flag `SATISFIABLE`.  The numeric values come from
the `clingo_solve_result_e` enumeration of the clingo 5.8.0 header that
`build.rs` generates the bindings from (satisfiable = 1,
unsatisfiable = 2, exhausted = 4, interrupted = 8); the bindings file
itself is generated and not under `src/`. -/
def SolveResult.satisfiableBit : Nat := 1

/-- The clingo result flag `UNSATISFIABLE` (see `satisfiableBit`). -/
def SolveResult.unsatisfiableBit : Nat := 2

/-- The clingo result flag `EXHAUSTED` (see `satisfiableBit`). -/
def SolveResult.exhaustedBit : Nat := 4

/-- The clingo result flag `INTERRUPTED` (see `satisfiableBit`). -/
def SolveResult.interruptedBit : Nat := 8

/-- Value `SolveResult::all().bits()`: the union of the four declared flags. -/
def SolveResult.allBits : Nat :=
  SolveResult.satisfiableBit ||| SolveResult.unsatisfiableBit |||
    SolveResult.exhaustedBit ||| SolveResult.interruptedBit

/-- Conversion `SolveResult::from_bits` (the `bitflags` crate): keep the bits when
they contain no unknown flag, reject the pattern otherwise (truncating
against `all()` and comparing, as the crate does). -/
def SolveResult.fromBits (bits : Nat) : Option SolveResult :=
  let truncated := bits &&& SolveResult.allBits
  if truncated = bits then some ⟨bits⟩ else none

/-- Operation `SolveHandle::get` from `src/clingo/solve_handle.rs` (lines 69–80).
The native call outcome is an oracle pair: whether
`clingo_solve_handle_get` succeeded, and the result bit pattern it
stored.  On success the bits go through `SolveResult::from_bits`, and an
unrecognized pattern is a `Bindings` error rather than a truncation. -/
def SolveHandle.get (nativeOk : Bool) (resultBits : Nat) :
    Except ClingoError SolveResult :=
  if !nativeOk then
    Except.error (ClingoError.internal "Call to clingo_solve_handle_get() failed")
  else
    match SolveResult.fromBits resultBits with
    | some result => Except.ok result
    | none =>
      Except.error
        (ClingoError.bindings "Unknown or invalid bitflag combination in clingo_solve_result.")

/-- The native session state owned by a `Control`
(`src/clingo/control.rs`): the programs loaded so far through
`clingo_control_load`. -/
structure NativeSession where
  loadedPrograms : List String
deriving DecidableEq, Repr

/-- Whether a Rust string contains a NUL byte, the condition under
which `CString::new` fails with a `NulError` (a NUL byte occurs in
UTF-8 text exactly where the character U+0000 occurs). -/
def containsNul (s : String) : Bool :=
  s.toList.contains (Char.ofNat 0)

/-- Operation `Control::load` from `src/clingo/control.rs` (lines 75–87).  The
returned pair is the result together with a flag recording whether the
native `clingo_control_load` call was reached: `CString::new(file)`
runs first, and its `NulError` (converted by the `From` impl in
`src/clingo/error.rs`) is returned by `?` before any native call, so a
path containing a NUL byte leaves the session untouched.  `nativeOk`
is the oracle outcome of the native call when it is reached. -/
def Control.load (session : NativeSession) (nativeOk : Bool) (file : String) :
    Except ClingoError NativeSession × Bool :=
  if containsNul file then
    (Except.error ClingoError.nulError, false)
  else if nativeOk then
    (Except.ok { loadedPrograms := session.loadedPrograms ++ [file] }, true)
  else
    (Except.error (ClingoError.internal "Failed to load program into control"), true)

/-- The state of a started native search, as `Control::solve` in
`src/clingo/control.rs` interacts with it: the models the search will
still deliver to the registered event callback, and the final result
bit pattern reported once the search finishes. -/
structure SolveEngine where
  pendingModels : List (List Symbol)
  finalBits : Nat
deriving Repr

/-- Operation `Control::solve` from `src/clingo/control.rs` (lines 136–169).  The
function registers the event-callback trampoline with
`clingo_control_solve`, wraps the returned native handle, and then
immediately calls `SolveHandle::get` on it.  `get` blocks until the
search has fully finished: every pending model is delivered to the
callback during that wait (callback delivery is elided here), the
pending stream is drained, and the final result flags are decoded and
returned.  The caller receives the final `SolveResult` and the settled
engine — not a `SolveHandle`.  `startOk` is the oracle outcome of
`clingo_control_solve` itself. -/
def Control.solve (startOk : Bool) (engine : SolveEngine) :
    Except ClingoError (SolveResult × SolveEngine) :=
  if !startOk then
    Except.error (ClingoError.internal "Failed to solve program")
  else
    match SolveHandle.get true engine.finalBits with
    | Except.error e => Except.error e
    | Except.ok result =>
      Except.ok (result, { pendingModels := [], finalBits := engine.finalBits })

/-- The `OptimizeStatus` messages of `src/optimization/worker.rs`. -/
inductive OptimizeStatus where
  | setup
  | grounding
  | solving
  | newModel (template : Template)
  | finished
  | error (message : String)

/-- Whether a status message is `Finished`. -/
def isFinished : OptimizeStatus → Bool
  | .finished => true
  | _ => false

/-- Whether a status message is `Error(_)`. -/
def isErrorStatus : OptimizeStatus → Bool
  | .error _ => true
  | _ => false

/-- Whether a status message is `NewModel(_)`. -/
def isNewModelStatus : OptimizeStatus → Bool
  | .newModel _ => true
  | _ => false

/-- Modelled from the spec: the polling solve-handle API used by the
worker loop in `src/optimization/worker.rs` (`handle.wait(0.1)`,
`handle.model()`, `handle.resume()`, `handle.cancel()`) is not defined
under `src/` — `src/clingo/solve_handle.rs` only provides `model` and
the blocking `get` — so one loop iteration's native outcomes are
modelled per spec §4.3 as an oracle: `notReady` when the bounded wait
times out, `modelSome` when a model is available (carrying the outcome
of its `symbols(2)` enumeration and of the later `resume` call),
`modelNone` when the search is exhausted, `modelErr` when `model()`
itself fails. -/
inductive PollResult where
  | notReady
  | modelSome (symbolsResult : Except ClingoError (List Symbol))
      (resumeResult : Except ClingoError Unit)
  | modelNone
  | modelErr (e : ClingoError)

/-- One iteration of the worker's solve loop: the value the shared
atomic stop flag is observed to hold at the top of the iteration, and
the poll outcome used when the flag is not set. -/
structure LoopStep where
  flagSet : Bool
  poll : PollResult

/-- How a worker run can leave `run_optimization_logic`: returning
`Ok(())`, returning `Err` with the rendered message, or — for a run
whose oracle lists fewer loop iterations than the loop would consume —
still running. -/
inductive RunExit where
  | ok
  | err (message : String)
  | running

/-- The solve loop of `run_optimization_logic` in
`src/optimization/worker.rs` (lines 102–138), iterating over the oracle
steps.  Channel sends are modelled as infallible appends (the consumer
holds the receiver for the whole run; the source discards or `?`s the
send results).  In order, one iteration: an observed stop flag cancels
the handle (result discarded) and emits `Finished`; a timed-out wait
loops; an available model is decoded — a decode failure is returned
upward by `?` — merged over the input template, emitted as `NewModel`,
and the search resumed (`resume()?`); an exhausted search emits
`Finished`; a failed `model()` emits `Error` directly and stops with
`Ok(())`. -/
def solveLoop (template : Template) (items : List Item) :
    List LoopStep → List OptimizeStatus × RunExit
  | [] => ([], RunExit.running)
  | step :: rest =>
    if step.flagSet then
      ([OptimizeStatus.finished], RunExit.ok)
    else
      match step.poll with
      | PollResult.notReady => solveLoop template items rest
      | PollResult.modelNone => ([OptimizeStatus.finished], RunExit.ok)
      | PollResult.modelErr e =>
        ([OptimizeStatus.error e.toString], RunExit.ok)
      | PollResult.modelSome symbolsResult resumeResult =>
        match chosen_items_from_model symbolsResult with
        | Except.error msg => ([], RunExit.err msg)
        | Except.ok chosen =>
          let newTemplate := applyChosenItems template items chosen
          match resumeResult with
          | Except.error e =>
            ([OptimizeStatus.newModel newTemplate], RunExit.err e.toString)
          | Except.ok _ =>
            (OptimizeStatus.newModel newTemplate ::
               (solveLoop template items rest).1,
             (solveLoop template items rest).2)

/-- The native outcomes a worker run depends on, in the order
`run_optimization_logic` consumes them: `Control::new`, the two
`Control::load` calls, `Control::ground`, the single stop-flag load
between grounding and solving, `control.solve()`, and then one
`LoopStep` per executed loop iteration. -/
structure WorkerOracle where
  controlNew : Except ClingoError Unit
  loadInstance : Except ClingoError Unit
  loadEncoding : Except ClingoError Unit
  ground : Except ClingoError Unit
  stopBeforeSolve : Bool
  solveStart : Except ClingoError Unit
  steps : List LoopStep

/-- Function `run_optimization_logic` from `src/optimization/worker.rs`
(lines 71–140), as the pair of the status messages it sends and how it
returns.  The instance-text construction and scratch-file write
(lines 79–85) are elided: `writeln!` into a `String` cannot fail, the
`fs::write` result is discarded, and neither influences the messages.
`Setup` is sent first; any failing engine call before grounding returns
`Err` with only `Setup` sent; `Grounding` precedes `ground()`; a stop
flag observed set after grounding returns `Ok(())` with no further
message; otherwise `Solving` is sent, the solve starts, and the loop
runs over the oracle steps. -/
def run_optimization_logic (template : Template) (items : List Item)
    (o : WorkerOracle) : List OptimizeStatus × RunExit :=
  match o.controlNew with
  | Except.error e => ([OptimizeStatus.setup], RunExit.err e.toString)
  | Except.ok _ =>
    match o.loadInstance with
    | Except.error e => ([OptimizeStatus.setup], RunExit.err e.toString)
    | Except.ok _ =>
      match o.loadEncoding with
      | Except.error e => ([OptimizeStatus.setup], RunExit.err e.toString)
      | Except.ok _ =>
        match o.ground with
        | Except.error e =>
          ([OptimizeStatus.setup, OptimizeStatus.grounding], RunExit.err e.toString)
        | Except.ok _ =>
          if o.stopBeforeSolve then
            ([OptimizeStatus.setup, OptimizeStatus.grounding], RunExit.ok)
          else
            match o.solveStart with
            | Except.error e =>
              ([OptimizeStatus.setup, OptimizeStatus.grounding,
                OptimizeStatus.solving], RunExit.err e.toString)
            | Except.ok _ =>
              ([OptimizeStatus.setup, OptimizeStatus.grounding,
                OptimizeStatus.solving] ++ (solveLoop template items o.steps).1,
               (solveLoop template items o.steps).2)

/-- Function `start_optimization_worker` from `src/optimization/worker.rs`
(lines 46–58), viewed as the full message trace of the spawned thread:
the messages `run_optimization_logic` sent, followed by one `Error`
message rendering the returned error when the run returned `Err`. -/
def start_optimization_worker (template : Template) (items : List Item)
    (o : WorkerOracle) : List OptimizeStatus :=
  match run_optimization_logic template items o with
  | (messages, RunExit.err msg) => messages ++ [OptimizeStatus.error msg]
  | (messages, _) => messages

/-- An empty template, as `Template::new` in
`src/core/domain/template.rs` builds one (used as a concrete fixture). -/
def emptyTemplate : Template :=
  { name := "Untitled Template", charClass := Class.Paladin, slots := fun _ => none }

/-- Whether a symbol is a `Function` named `slot_chosen` — the symbols
the decode loop of `chosen_items_from_model` does not skip. -/
def isSlotChosenFn : Symbol → Bool
  | .func n _ => n == "slot_chosen"
  | _ => false

/-- Whether a symbol is of `Number` kind. -/
def isNumberSym : Symbol → Bool
  | .num _ => true
  | _ => false

/-- A malformed `slot_chosen` fact, in the sense the decode loop
rejects: a `Function` named `slot_chosen` that has fewer than two
arguments, or a first or second argument that is not of `Number` kind,
or a first argument whose `u16`-cast value is not a valid `ItemSlot`
discriminant. -/
def isMalformedSlotChosen : Symbol → Bool
  | .func n args =>
      n == "slot_chosen" &&
        (match args with
         | [] => true
         | [_] => true
         | a :: b :: _ =>
             !(isNumberSym a) || !(isNumberSym b) ||
               (match a with
                | .num v => (ItemSlot.fromRepr (i32ToU16 v)).isNone
                | _ => false))
  | _ => false

/-- Whether an `Except` value is a success. -/
def exceptSucceeded {ε α : Type} : Except ε α → Bool
  | .ok _ => true
  | .error _ => false

/-- Whether a loop iteration neither stops nor leaves the loop: the
stop flag is observed unset, and the poll either times out or delivers
a model that decodes successfully and whose `resume` succeeds. -/
def continuesStep (s : LoopStep) : Bool :=
  !s.flagSet &&
    (match s.poll with
     | PollResult.notReady => true
     | PollResult.modelSome symbolsResult resumeResult =>
         exceptSucceeded (chosen_items_from_model symbolsResult) &&
           exceptSucceeded resumeResult
     | _ => false)

/-- A candidate item with id 5 (fixture). -/
def exItem5 : Item := { id := 5, name := "five" }

/-- A candidate item with id 7 (fixture). -/
def exItem7 : Item := { id := 7, name := "seven" }

/-- A template whose Ring slot is filled with `exItem7` (fixture). -/
def filledTemplate : Template :=
  Template.insertSlot emptyTemplate ItemSlot.Ring exItem7

/-- An oracle for a run whose every engine call succeeds and whose stop
flag is observed set at the check between grounding and solving
(fixture for the pre-solve cancellation path). -/
def oCancelPreSolve : WorkerOracle :=
  { controlNew := Except.ok (), loadInstance := Except.ok (),
    loadEncoding := Except.ok (), ground := Except.ok (),
    stopBeforeSolve := true, solveStart := Except.ok (), steps := [] }

/-- An oracle for a run whose every engine call succeeds, whose first
loop iteration times out with the stop flag unset, and whose second
iteration observes the stop flag set (fixture for in-loop
cancellation). -/
def oCancelInLoop : WorkerOracle :=
  { controlNew := Except.ok (), loadInstance := Except.ok (),
    loadEncoding := Except.ok (), ground := Except.ok (),
    stopBeforeSolve := false, solveStart := Except.ok (),
    steps := [⟨false, PollResult.notReady⟩, ⟨true, PollResult.notReady⟩] }

/-- An oracle for a run whose first loop iteration delivers a model
containing a malformed `slot_chosen` fact (zero arguments), the stop
flag never observed set (fixture for the decode-failure path). -/
def oMalformedRun : WorkerOracle :=
  { controlNew := Except.ok (), loadInstance := Except.ok (),
    loadEncoding := Except.ok (), ground := Except.ok (),
    stopBeforeSolve := false, solveStart := Except.ok (),
    steps := [⟨false, PollResult.modelSome
      (Except.ok [Symbol.func "slot_chosen" []]) (Except.ok ())⟩] }

/-- C6: a `Symbol` of kind `Number` fails both the function-name
accessor and the arguments accessor with a `TypeError`; a `Function`
symbol with zero arguments yields `Ok` of the empty sequence from the
arguments accessor; and the numeric accessor fails with a `TypeError`
on every symbol whose kind is not `Number`. -/
theorem symbol_accessor_type_guards :
    ∀ s : Symbol,
      (s.kind = SymbolType.number →
        s.name = Except.error (ClingoError.typeError "Symbol is not a function") ∧
        s.arguments = Except.error (ClingoError.typeError "Symbol is not a function")) ∧
      (∀ n : String, s = Symbol.func n [] → s.arguments = Except.ok []) ∧
      (s.kind ≠ SymbolType.number →
        s.number = Except.error (ClingoError.typeError "Symbol is not a number")) := by
  intro s
  refine ⟨?_, ?_, ?_⟩ <;> cases s <;>
    simp [Symbol.kind, Symbol.name, Symbol.arguments, Symbol.number]

/-- Witness for C6 at concrete symbols. -/
theorem symbol_accessor_type_guards_witness :
    (Symbol.num 3).name =
        Except.error (ClingoError.typeError "Symbol is not a function") ∧
      (Symbol.func "f" []).arguments = Except.ok [] ∧
      (Symbol.str "x").number =
        Except.error (ClingoError.typeError "Symbol is not a number") :=
  ⟨((symbol_accessor_type_guards (Symbol.num 3)).1 rfl).1,
   (symbol_accessor_type_guards (Symbol.func "f" [])).2.1 "f" rfl,
   (symbol_accessor_type_guards (Symbol.str "x")).2.2 (by decide)⟩

/-- C7: retrieving the final solve result decodes the bit pattern into
`SolveResult` whenever the pattern consists only of the four recognized
flags, and fails with the bindings (decode) error — rather than
truncating — for every pattern containing an unrecognized bit. -/
theorem solve_handle_get_decodes_flags :
    ∀ bits : Nat,
      (bits &&& SolveResult.allBits = bits →
        SolveHandle.get true bits = Except.ok ⟨bits⟩) ∧
      (bits &&& SolveResult.allBits ≠ bits →
        SolveHandle.get true bits =
          Except.error
            (ClingoError.bindings
              "Unknown or invalid bitflag combination in clingo_solve_result.")) := by
  intro bits
  constructor
  · intro h
    simp [SolveHandle.get, SolveResult.fromBits, h]
  · intro h
    simp [SolveHandle.get, SolveResult.fromBits, h]

/-- Witness for C7 at the patterns 5 (Satisfiable ∧ Exhausted) and 21
(bit 16 unrecognized). -/
theorem solve_handle_get_decodes_flags_witness :
    (5 &&& SolveResult.allBits = 5 ∧ SolveHandle.get true 5 = Except.ok ⟨5⟩) ∧
      (21 &&& SolveResult.allBits ≠ 21 ∧
        SolveHandle.get true 21 =
          Except.error
            (ClingoError.bindings
              "Unknown or invalid bitflag combination in clingo_solve_result.")) :=
  ⟨⟨by decide, (solve_handle_get_decodes_flags 5).1 (by decide)⟩,
   ⟨by decide, (solve_handle_get_decodes_flags 21).2 (by decide)⟩⟩

/-- C8: for every file-path string containing a NUL byte, `Control::load`
returns the `NulError` encoding failure and the native engine call is
never reached (second component `false`), for any session state and any
would-be native outcome. -/
theorem control_load_rejects_nul :
    ∀ (session : NativeSession) (nativeOk : Bool) (file : String),
      containsNul file = true →
      Control.load session nativeOk file = (Except.error ClingoError.nulError, false) := by
  intro session nativeOk file h
  simp [Control.load, h]

/-- Witness for C8 at a path with an interior NUL byte. -/
theorem control_load_rejects_nul_witness :
    containsNul "a\x00b" = true ∧
      Control.load ⟨[]⟩ true "a\x00b" = (Except.error ClingoError.nulError, false) :=
  ⟨by decide, control_load_rejects_nul ⟨[]⟩ true "a\x00b" (by decide)⟩

/-- C2 (code evaluation): `Control::solve` on a session whose started
search still has one pending model does not return a handle for the
caller to drive — it drains the search to completion (the settled
engine has no pending models) and returns the decoded final
`SolveResult`, here the flags with bit pattern 5. -/
theorem control_solve_blocks_and_returns_result :
    Control.solve true
        { pendingModels := [[Symbol.func "slot_chosen" [Symbol.num 21, Symbol.num 5]]],
          finalBits := 5 } =
      Except.ok (⟨5⟩, { pendingModels := [], finalBits := 5 }) := rfl

/-- A successful `Except` is an `ok`. -/
theorem exceptSucceeded_ok {ε α : Type} (e : Except ε α)
    (h : exceptSucceeded e = true) : ∃ v, e = Except.ok v := by
  cases e with
  | ok v => exact ⟨v, rfl⟩
  | error _ => simp [exceptSucceeded] at h

/-- A symbol the decode loop skips contributes nothing. -/
theorem aux_cons_skip (s : Symbol) (h : isSlotChosenFn s = false) :
    ∀ l, chosenItemsAux (s :: l) = chosenItemsAux l := by
  intro l
  cases s with
  | infimum => simp [chosenItemsAux, Symbol.kind]
  | num v => simp [chosenItemsAux, Symbol.kind]
  | str t => simp [chosenItemsAux, Symbol.kind]
  | supremum => simp [chosenItemsAux, Symbol.kind]
  | unknown => simp [chosenItemsAux, Symbol.kind]
  | func n args =>
    simp only [isSlotChosenFn, beq_eq_false_iff_ne, ne_eq] at h
    simp [chosenItemsAux, Symbol.kind, Symbol.name, h]

/-- A `slot_chosen` fact with no arguments makes the decode loop fail. -/
theorem aux_no_slot_argument (l : List Symbol) :
    chosenItemsAux (Symbol.func "slot_chosen" [] :: l) =
      Except.error "Expected an argument for `slot` at index 0 in slot_chosen" := by
  simp [chosenItemsAux, Symbol.kind, Symbol.name, Symbol.arguments]

/-- A `slot_chosen` fact with one argument makes the decode loop fail. -/
theorem aux_no_item_argument (a : Symbol) (l : List Symbol) :
    chosenItemsAux (Symbol.func "slot_chosen" [a] :: l) =
      Except.error "Expected an argument for `item` at index 1 in slot_chosen" := by
  simp [chosenItemsAux, Symbol.kind, Symbol.name, Symbol.arguments]

/-- A `slot_chosen` fact whose first argument is not a number makes the
decode loop fail with the slot-parse context message. -/
theorem aux_slot_not_number (a b : Symbol) (t : List Symbol) (l : List Symbol)
    (ha : isNumberSym a = false) :
    chosenItemsAux (Symbol.func "slot_chosen" (a :: b :: t) :: l) =
      Except.error "Failed to parse slot ID" := by
  cases a <;>
    simp [chosenItemsAux, Symbol.kind, Symbol.name, Symbol.arguments, Symbol.number] <;>
    simp [isNumberSym] at ha

/-- A `slot_chosen` fact whose first argument is a number that is not a
valid `ItemSlot` discriminant makes the decode loop fail. -/
theorem aux_invalid_repr (v : Int) (b : Symbol) (t : List Symbol) (l : List Symbol)
    (hfr : ItemSlot.fromRepr (i32ToU16 v) = none) :
    chosenItemsAux (Symbol.func "slot_chosen" (Symbol.num v :: b :: t) :: l) =
      Except.error ("Invalid slot representation: " ++ ToString.toString v) := by
  simp [chosenItemsAux, Symbol.kind, Symbol.name, Symbol.arguments, Symbol.number, hfr]

/-- A `slot_chosen` fact whose second argument is not a number makes
the decode loop fail with the rendered type error. -/
theorem aux_item_not_number (v : Int) (slot : ItemSlot) (b : Symbol)
    (t : List Symbol) (l : List Symbol)
    (hfr : ItemSlot.fromRepr (i32ToU16 v) = some slot)
    (hb : isNumberSym b = false) :
    chosenItemsAux (Symbol.func "slot_chosen" (Symbol.num v :: b :: t) :: l) =
      Except.error (ClingoError.typeError "Symbol is not a number").toString := by
  cases b <;>
    simp [chosenItemsAux, Symbol.kind, Symbol.name, Symbol.arguments, Symbol.number, hfr] <;>
    simp [isNumberSym] at hb

/-- A well-formed `slot_chosen` fact contributes exactly its decoded
pair at the head of the remaining decode. -/
theorem aux_wellformed_cons (v w : Int) (slot : ItemSlot) (t : List Symbol)
    (l : List Symbol) (hfr : ItemSlot.fromRepr (i32ToU16 v) = some slot) :
    chosenItemsAux (Symbol.func "slot_chosen" (Symbol.num v :: Symbol.num w :: t) :: l) =
      (chosenItemsAux l).map (fun tail => (slot, w) :: tail) := by
  simp only [chosenItemsAux, Symbol.kind, Symbol.name, Symbol.arguments, Symbol.number, hfr]
  cases chosenItemsAux l <;> simp [hfr, Except.map]

/-- Head classification for the decode loop: a symbol either always
produces the same error, is skipped, or prepends one decoded pair. -/
theorem aux_cons_cases (s : Symbol) :
    (∃ msg, ∀ l, chosenItemsAux (s :: l) = Except.error msg) ∨
      (∀ l, chosenItemsAux (s :: l) = chosenItemsAux l) ∨
      (∃ p : ItemSlot × Int, ∀ l,
        chosenItemsAux (s :: l) = (chosenItemsAux l).map (fun tail => p :: tail)) := by
  by_cases hsel : isSlotChosenFn s = true
  case neg =>
    exact Or.inr (Or.inl (aux_cons_skip s (by simpa using hsel)))
  case pos =>
    obtain ⟨n, args, rfl, hn⟩ : ∃ n args, s = Symbol.func n args ∧ n = "slot_chosen" := by
      cases s <;> simp [isSlotChosenFn] at hsel <;> exact ⟨_, _, rfl, hsel⟩
    subst hn
    match args with
    | [] => exact Or.inl ⟨_, aux_no_slot_argument⟩
    | [a] => exact Or.inl ⟨_, aux_no_item_argument a⟩
    | a :: b :: t =>
      cases ha : isNumberSym a with
      | false => exact Or.inl ⟨_, fun l => aux_slot_not_number a b t l ha⟩
      | true =>
        obtain ⟨v, rfl⟩ : ∃ v, a = Symbol.num v := by
          cases a <;> simp [isNumberSym] at ha <;> exact ⟨_, rfl⟩
        cases hfr : ItemSlot.fromRepr (i32ToU16 v) with
        | none => exact Or.inl ⟨_, fun l => aux_invalid_repr v b t l hfr⟩
        | some slot =>
          cases hb : isNumberSym b with
          | false => exact Or.inl ⟨_, fun l => aux_item_not_number v slot b t l hfr hb⟩
          | true =>
            obtain ⟨w, rfl⟩ : ∃ w, b = Symbol.num w := by
              cases b <;> simp [isNumberSym] at hb <;> exact ⟨_, rfl⟩
            exact Or.inr (Or.inr ⟨(slot, w), fun l => aux_wellformed_cons v w slot t l hfr⟩)

/-- C10: decoding depends only on the `Function` symbols named
`slot_chosen` — the decode of any symbol list equals the decode of its
sublist of `slot_chosen` function symbols, so adding or removing other
symbols never changes the decoded assignments. -/
theorem chosen_items_depend_only_on_slot_chosen :
    ∀ syms : List Symbol,
      chosen_items_from_model (Except.ok syms) =
        chosen_items_from_model (Except.ok (syms.filter isSlotChosenFn)) := by
  intro syms
  simp only [chosen_items_from_model]
  induction syms with
  | nil => rfl
  | cons s rest ih =>
    cases hsel : isSlotChosenFn s with
    | false =>
      rw [List.filter_cons, if_neg (by simp [hsel]), aux_cons_skip s hsel, ih]
    | true =>
      rw [List.filter_cons, if_pos (by simp [hsel])]
      rcases aux_cons_cases s with ⟨msg, hE⟩ | hskip | ⟨p, hP⟩
      · rw [hE, hE]
      · rw [hskip, hskip, ih]
      · rw [hP, hP, ih]

/-- A `NewModel` message is neither `Finished` nor `Error`. -/
theorem newmodel_not_terminal (m : OptimizeStatus) (h : isNewModelStatus m = true) :
    isFinished m = false ∧ isErrorStatus m = false := by
  cases m <;> simp [isNewModelStatus] at h <;> simp [isFinished, isErrorStatus]

/-- An iteration that observes the stop flag set cancels and finishes. -/
theorem solveLoop_flag_head (t : Template) (items : List Item) (step : LoopStep)
    (post : List LoopStep) (h : step.flagSet = true) :
    solveLoop t items (step :: post) = ([OptimizeStatus.finished], RunExit.ok) := by
  simp [solveLoop, h]

/-- An iteration that delivers a model failing to decode returns the
decode error upward without sending a message. -/
theorem solveLoop_decode_err_head (t : Template) (items : List Item) (step : LoopStep)
    (post : List LoopStep) (symbolsResult : Except ClingoError (List Symbol))
    (resumeResult : Except ClingoError Unit) (msg : String)
    (hflag : step.flagSet = false)
    (hpoll : step.poll = PollResult.modelSome symbolsResult resumeResult)
    (hdec : chosen_items_from_model symbolsResult = Except.error msg) :
    solveLoop t items (step :: post) = ([], RunExit.err msg) := by
  simp [solveLoop, hflag, hpoll, hdec]

/-- Running the loop through iterations that all continue prepends only
`NewModel` messages and leaves the outcome of the remaining
iterations unchanged. -/
theorem solveLoop_continues_append (t : Template) (items : List Item) :
    ∀ (pre rest : List LoopStep) (rms : List OptimizeStatus) (rr : RunExit),
      (∀ s ∈ pre, continuesStep s = true) →
      solveLoop t items rest = (rms, rr) →
      ∃ ms, solveLoop t items (pre ++ rest) = (ms ++ rms, rr) ∧
        ∀ m ∈ ms, isNewModelStatus m = true := by
  intro pre
  induction pre with
  | nil =>
    intro rest rms rr _ hrest
    exact ⟨[], by simpa using hrest, by simp⟩
  | cons s pre' ih =>
    intro rest rms rr h hrest
    have hs := h s (List.mem_cons_self s pre')
    obtain ⟨ms, hms, hall⟩ :=
      ih rest rms rr (fun x hx => h x (List.mem_cons_of_mem s hx)) hrest
    simp only [continuesStep, Bool.and_eq_true, Bool.not_eq_true'] at hs
    obtain ⟨hflag, hpoll⟩ := hs
    cases hp : s.poll with
    | notReady =>
      refine ⟨ms, ?_, hall⟩
      rw [List.cons_append]
      simpa [solveLoop, hflag, hp] using hms
    | modelSome sr rr' =>
      rw [hp] at hpoll
      simp only [Bool.and_eq_true] at hpoll
      obtain ⟨chosen, hchosen⟩ := exceptSucceeded_ok _ hpoll.1
      obtain ⟨u, hu⟩ := exceptSucceeded_ok _ hpoll.2
      cases u
      refine ⟨OptimizeStatus.newModel (applyChosenItems t items chosen) :: ms, ?_, ?_⟩
      · rw [List.cons_append]
        simp [solveLoop, hflag, hp, hchosen, hu, hms]
      · intro m hm
        rcases List.mem_cons.mp hm with rfl | hm'
        · rfl
        · exact hall m hm'
    | modelNone => rw [hp] at hpoll; simp at hpoll
    | modelErr e => rw [hp] at hpoll; simp at hpoll

/-- A run whose engine phases all succeed and whose pre-solve stop
check observes the flag unset sends `Setup`, `Grounding`, `Solving` and
then behaves as its solve loop. -/
theorem run_logic_phases_ok (t : Template) (items : List Item) (o : WorkerOracle)
    (lms : List OptimizeStatus) (lr : RunExit)
    (h1 : o.controlNew = Except.ok ()) (h2 : o.loadInstance = Except.ok ())
    (h3 : o.loadEncoding = Except.ok ()) (h4 : o.ground = Except.ok ())
    (h5 : o.stopBeforeSolve = false) (h6 : o.solveStart = Except.ok ())
    (hl : solveLoop t items o.steps = (lms, lr)) :
    run_optimization_logic t items o =
      ([OptimizeStatus.setup, OptimizeStatus.grounding, OptimizeStatus.solving] ++ lms,
        lr) := by
  obtain ⟨cn, li, le, g, stop, ss, steps⟩ := o
  simp only at h1 h2 h3 h4 h5 h6 hl
  subst h1 h2 h3 h4 h5 h6
  simp [run_optimization_logic, hl]

/-- A run whose engine phases succeed up to grounding and whose
pre-solve stop check observes the flag set returns `Ok(())` having sent
only `Setup` and `Grounding`. -/
theorem run_logic_presolve_stop (t : Template) (items : List Item) (o : WorkerOracle)
    (h1 : o.controlNew = Except.ok ()) (h2 : o.loadInstance = Except.ok ())
    (h3 : o.loadEncoding = Except.ok ()) (h4 : o.ground = Except.ok ())
    (h5 : o.stopBeforeSolve = true) :
    run_optimization_logic t items o =
      ([OptimizeStatus.setup, OptimizeStatus.grounding], RunExit.ok) := by
  obtain ⟨cn, li, le, g, stop, ss, steps⟩ := o
  simp only at h1 h2 h3 h4 h5
  subst h1 h2 h3 h4 h5
  simp [run_optimization_logic]

/-- A worker whose logic returns `Ok` emits exactly the logic's
messages. -/
theorem start_worker_of_ok (t : Template) (items : List Item) (o : WorkerOracle)
    (ms : List OptimizeStatus)
    (h : run_optimization_logic t items o = (ms, RunExit.ok)) :
    start_optimization_worker t items o = ms := by
  simp [start_optimization_worker, h]

/-- A worker whose logic returns `Err` emits the logic's messages
followed by one `Error` message. -/
theorem start_worker_of_err (t : Template) (items : List Item) (o : WorkerOracle)
    (ms : List OptimizeStatus) (msg : String)
    (h : run_optimization_logic t items o = (ms, RunExit.err msg)) :
    start_optimization_worker t items o = ms ++ [OptimizeStatus.error msg] := by
  simp [start_optimization_worker, h]

/-- C1 (counterexample to the claim as stated): a run whose engine
calls all succeed and whose stop flag is observed set at the check
after grounding emits only `Setup` and `Grounding` — zero `Finished`
messages, not exactly one. -/
theorem worker_presolve_cancel_counterexample :
    start_optimization_worker emptyTemplate [] oCancelPreSolve =
        [OptimizeStatus.setup, OptimizeStatus.grounding] ∧
      (start_optimization_worker emptyTemplate [] oCancelPreSolve).countP isFinished = 0 :=
  ⟨rfl, rfl⟩

/-- C1 (amended): when the stop flag is observed set during the solve
loop — every earlier iteration having continued — the worker emits
exactly one `Finished` message, never an `Error` message, and nothing
at all (in particular no `NewModel`) after the `Finished`; when the
flag is instead observed set at the check after grounding and before
solving, the worker terminates silently, emitting only `Setup` and
`Grounding` — neither `Solving`, nor any `NewModel`, nor `Finished`,
nor `Error`. -/
theorem worker_cancellation_protocol :
    (∀ (t : Template) (items : List Item) (o : WorkerOracle)
        (pre : List LoopStep) (step : LoopStep) (post : List LoopStep),
      o.controlNew = Except.ok () → o.loadInstance = Except.ok () →
      o.loadEncoding = Except.ok () → o.ground = Except.ok () →
      o.stopBeforeSolve = false → o.solveStart = Except.ok () →
      o.steps = pre ++ step :: post →
      (∀ s ∈ pre, continuesStep s = true) →
      step.flagSet = true →
      (start_optimization_worker t items o).countP isFinished = 1 ∧
        (start_optimization_worker t items o).countP isErrorStatus = 0 ∧
        ∃ ms, start_optimization_worker t items o = ms ++ [OptimizeStatus.finished]) ∧
      (∀ (t : Template) (items : List Item) (o : WorkerOracle),
        o.controlNew = Except.ok () → o.loadInstance = Except.ok () →
        o.loadEncoding = Except.ok () → o.ground = Except.ok () →
        o.stopBeforeSolve = true →
        start_optimization_worker t items o =
          [OptimizeStatus.setup, OptimizeStatus.grounding]) := by
  constructor
  · intro t items o pre step post h1 h2 h3 h4 h5 h6 hsteps hpre hflag
    obtain ⟨ms, hms, hall⟩ :=
      solveLoop_continues_append t items pre (step :: post) [OptimizeStatus.finished]
        RunExit.ok hpre (solveLoop_flag_head t items step post hflag)
    have hrun :=
      run_logic_phases_ok t items o (ms ++ [OptimizeStatus.finished]) RunExit.ok
        h1 h2 h3 h4 h5 h6 (by rw [hsteps]; exact hms)
    have hstart := start_worker_of_ok t items o _ hrun
    have hmsFin : ms.countP isFinished = 0 :=
      List.countP_eq_zero.mpr fun m hm => by
        simp [(newmodel_not_terminal m (hall m hm)).1]
    have hmsErr : ms.countP isErrorStatus = 0 :=
      List.countP_eq_zero.mpr fun m hm => by
        simp [(newmodel_not_terminal m (hall m hm)).2]
    refine ⟨?_, ?_, ?_⟩
    · rw [hstart]
      simp [List.countP_append, List.countP_cons, hmsFin, isFinished]
    · rw [hstart]
      simp [List.countP_append, List.countP_cons, hmsErr, isErrorStatus]
    · exact ⟨[OptimizeStatus.setup, OptimizeStatus.grounding, OptimizeStatus.solving] ++ ms,
        by rw [hstart]; simp⟩
  · intro t items o h1 h2 h3 h4 h5
    exact start_worker_of_ok t items o _ (run_logic_presolve_stop t items o h1 h2 h3 h4 h5)

/-- Witness for C1 (amended) at concrete runs: an in-loop cancellation
after one timed-out wait, and a pre-solve cancellation. -/
theorem worker_cancellation_protocol_witness :
    ((start_optimization_worker emptyTemplate [] oCancelInLoop).countP isFinished = 1 ∧
        (start_optimization_worker emptyTemplate [] oCancelInLoop).countP isErrorStatus = 0 ∧
        ∃ ms, start_optimization_worker emptyTemplate [] oCancelInLoop =
          ms ++ [OptimizeStatus.finished]) ∧
      start_optimization_worker emptyTemplate [] oCancelPreSolve =
        [OptimizeStatus.setup, OptimizeStatus.grounding] :=
  ⟨worker_cancellation_protocol.1 emptyTemplate [] oCancelInLoop
      [⟨false, PollResult.notReady⟩] ⟨true, PollResult.notReady⟩ []
      rfl rfl rfl rfl rfl rfl rfl
      (by intro s hs; rw [List.mem_singleton] at hs; subst hs; rfl) rfl,
   worker_cancellation_protocol.2 emptyTemplate [] oCancelPreSolve rfl rfl rfl rfl rfl⟩

/-- A malformed `slot_chosen` fact at the head of the symbol list makes
the decode loop fail. -/
theorem head_malformed_errors (s : Symbol) (h : isMalformedSlotChosen s = true) :
    ∀ l, ∃ msg, chosenItemsAux (s :: l) = Except.error msg := by
  intro l
  obtain ⟨n, args, rfl⟩ : ∃ n args, s = Symbol.func n args := by
    cases s <;> simp [isMalformedSlotChosen] at h <;> exact ⟨_, _, rfl⟩
  simp only [isMalformedSlotChosen, Bool.and_eq_true, beq_iff_eq] at h
  obtain ⟨rfl, hm⟩ := h
  rcases args with _ | ⟨a, _ | ⟨b, t⟩⟩
  · exact ⟨_, aux_no_slot_argument l⟩
  · exact ⟨_, aux_no_item_argument a l⟩
  · cases ha : isNumberSym a with
    | false => exact ⟨_, aux_slot_not_number a b t l ha⟩
    | true =>
      obtain ⟨v, rfl⟩ : ∃ v, a = Symbol.num v := by
        cases a <;> simp [isNumberSym] at ha <;> exact ⟨_, rfl⟩
      cases hfr : ItemSlot.fromRepr (i32ToU16 v) with
      | none => exact ⟨_, aux_invalid_repr v b t l hfr⟩
      | some slot =>
        cases hb : isNumberSym b with
        | false => exact ⟨_, aux_item_not_number v slot b t l hfr hb⟩
        | true =>
          exfalso
          obtain ⟨w, rfl⟩ : ∃ w, b = Symbol.num w := by
            cases b <;> simp [isNumberSym] at hb <;> exact ⟨_, rfl⟩
          simp [isNumberSym, hfr] at hm

/-- Any malformed `slot_chosen` fact anywhere in the symbol list makes
the decode loop fail. -/
theorem malformed_in_list_errors :
    ∀ syms : List Symbol,
      (∃ s ∈ syms, isMalformedSlotChosen s = true) →
      ∃ msg, chosenItemsAux syms = Except.error msg := by
  intro syms
  induction syms with
  | nil => rintro ⟨s, hs, -⟩; cases hs
  | cons s rest ih =>
    rintro ⟨x, hx, hmal⟩
    rcases List.mem_cons.mp hx with rfl | hx'
    · exact head_malformed_errors x hmal rest
    · obtain ⟨msg, hmsg⟩ := ih ⟨x, hx', hmal⟩
      rcases aux_cons_cases s with ⟨m, hE⟩ | hskip | ⟨p, hP⟩
      · exact ⟨m, hE rest⟩
      · exact ⟨msg, by rw [hskip, hmsg]⟩
      · exact ⟨msg, by rw [hP, hmsg]; rfl⟩

/-- A symbol list whose `slot_chosen` facts are all well formed decodes
without error. -/
theorem wellformed_list_ok :
    ∀ syms : List Symbol,
      (∀ s ∈ syms, isSlotChosenFn s = true → isMalformedSlotChosen s = false) →
      ∃ chosen, chosenItemsAux syms = Except.ok chosen := by
  intro syms
  induction syms with
  | nil => exact fun _ => ⟨[], rfl⟩
  | cons s rest ih =>
    intro h
    obtain ⟨tail, htail⟩ :=
      ih fun x hx hsel => h x (List.mem_cons_of_mem s hx) hsel
    cases hsel : isSlotChosenFn s with
    | false => exact ⟨tail, by rw [aux_cons_skip s hsel, htail]⟩
    | true =>
      have hwf : isMalformedSlotChosen s = false :=
        h s (List.mem_cons_self s rest) hsel
      obtain ⟨n, args, rfl⟩ : ∃ n args, s = Symbol.func n args := by
        cases s <;> simp [isSlotChosenFn] at hsel <;> exact ⟨_, _, rfl⟩
      have hn : n = "slot_chosen" := by simpa [isSlotChosenFn] using hsel
      subst hn
      rcases args with _ | ⟨a, _ | ⟨b, t⟩⟩
      · simp [isMalformedSlotChosen] at hwf
      · simp [isMalformedSlotChosen] at hwf
      · cases ha : isNumberSym a with
        | false => simp [isMalformedSlotChosen, ha] at hwf
        | true =>
          obtain ⟨v, rfl⟩ : ∃ v, a = Symbol.num v := by
            cases a <;> simp [isNumberSym] at ha <;> exact ⟨_, rfl⟩
          cases hfr : ItemSlot.fromRepr (i32ToU16 v) with
          | none => simp [isMalformedSlotChosen, isNumberSym, hfr] at hwf
          | some slot =>
            cases hb : isNumberSym b with
            | false =>
              cases b <;> simp [isMalformedSlotChosen, isNumberSym, hfr] at hwf hb
            | true =>
              obtain ⟨w, rfl⟩ : ∃ w, b = Symbol.num w := by
                cases b <;> simp [isNumberSym] at hb <;> exact ⟨_, rfl⟩
              exact ⟨(slot, w) :: tail,
                by rw [aux_wellformed_cons v w slot t rest hfr, htail]; rfl⟩

/-- C9 (counterexample to the claim as stated): a `slot_chosen`
function symbol with three arguments whose third argument is of
`String` kind — hence "an argument that is not of Number kind" — is
nevertheless decoded successfully, because only the first two arguments
are ever inspected. -/
theorem chosen_items_malformed_counterexample :
    chosen_items_from_model
        (Except.ok [Symbol.func "slot_chosen"
          [Symbol.num 21, Symbol.num 5, Symbol.str "x"]]) =
      Except.ok [(ItemSlot.Head, 5)] ∧
      (Symbol.str "x").kind ≠ SymbolType.number :=
  ⟨rfl, by decide⟩

/-- C9 (amended): if a model's symbols contain a `slot_chosen` function
symbol that is malformed — fewer than two arguments, a first or second
argument that is not of Number kind, or a first argument that is not a
valid `ItemSlot` id — then decoding returns an error, and a worker run
whose loop reaches such a model ends with an `Error` message on the
channel; whereas a symbol list whose `slot_chosen` facts are all well
formed decodes without error (regardless of which item ids occur in the
candidate list). -/
theorem chosen_items_malformed_protocol :
    (∀ syms : List Symbol,
      (∃ s ∈ syms, isMalformedSlotChosen s = true) →
      ∃ msg, chosen_items_from_model (Except.ok syms) = Except.error msg) ∧
      (∀ syms : List Symbol,
        (∀ s ∈ syms, isSlotChosenFn s = true → isMalformedSlotChosen s = false) →
        ∃ chosen, chosen_items_from_model (Except.ok syms) = Except.ok chosen) ∧
      (∀ (t : Template) (items : List Item) (o : WorkerOracle)
          (pre post : List LoopStep) (syms : List Symbol)
          (resumeResult : Except ClingoError Unit),
        o.controlNew = Except.ok () → o.loadInstance = Except.ok () →
        o.loadEncoding = Except.ok () → o.ground = Except.ok () →
        o.stopBeforeSolve = false → o.solveStart = Except.ok () →
        o.steps = pre ++
          ⟨false, PollResult.modelSome (Except.ok syms) resumeResult⟩ :: post →
        (∀ s ∈ pre, continuesStep s = true) →
        (∃ s ∈ syms, isMalformedSlotChosen s = true) →
        ∃ ms msg, start_optimization_worker t items o =
          ms ++ [OptimizeStatus.error msg]) := by
  refine ⟨malformed_in_list_errors, wellformed_list_ok, ?_⟩
  intro t items o pre post syms resumeResult h1 h2 h3 h4 h5 h6 hsteps hpre hmal
  obtain ⟨msg, hmsg⟩ := malformed_in_list_errors syms hmal
  obtain ⟨ms, hms, -⟩ :=
    solveLoop_continues_append t items pre
      (⟨false, PollResult.modelSome (Except.ok syms) resumeResult⟩ :: post)
      [] (RunExit.err msg) hpre
      (solveLoop_decode_err_head t items _ post (Except.ok syms) resumeResult msg
        rfl rfl hmsg)
  rw [List.append_nil] at hms
  have hrun :=
    run_logic_phases_ok t items o ms (RunExit.err msg)
      h1 h2 h3 h4 h5 h6 (by rw [hsteps]; exact hms)
  exact ⟨[OptimizeStatus.setup, OptimizeStatus.grounding, OptimizeStatus.solving] ++ ms,
    msg, start_worker_of_err t items o _ msg hrun⟩

/-- Witness for C9 (amended) at concrete inputs: a zero-argument
`slot_chosen` fact fails to decode and ends a concrete run with an
`Error` message; a list whose only symbol is a plain number decodes
without error. -/
theorem chosen_items_malformed_protocol_witness :
    (∃ msg, chosen_items_from_model (Except.ok [Symbol.func "slot_chosen" []]) =
        Except.error msg) ∧
      (∃ chosen, chosen_items_from_model (Except.ok [Symbol.num 3]) =
        Except.ok chosen) ∧
      ∃ ms msg, start_optimization_worker emptyTemplate [] oMalformedRun =
        ms ++ [OptimizeStatus.error msg] :=
  ⟨chosen_items_malformed_protocol.1 [Symbol.func "slot_chosen" []]
      ⟨Symbol.func "slot_chosen" [], List.mem_singleton.mpr rfl, rfl⟩,
   chosen_items_malformed_protocol.2.1 [Symbol.num 3]
      (by intro s hs hsel; rw [List.mem_singleton] at hs; subst hs; cases hsel),
   chosen_items_malformed_protocol.2.2 emptyTemplate [] oMalformedRun
      [] [] [Symbol.func "slot_chosen" []] (Except.ok ())
      rfl rfl rfl rfl rfl rfl rfl (by intro s hs; cases hs)
      ⟨Symbol.func "slot_chosen" [], List.mem_singleton.mpr rfl, rfl⟩⟩

/-- What the merge loop does to one slot depends only on the chosen
entries naming that slot, folded in order over the slot's previous
entry. -/
theorem applyChosenItems_slots_proj (items : List Item) :
    ∀ (chosen : List (ItemSlot × Int)) (t : Template) (s : ItemSlot),
      (applyChosenItems t items chosen).slots s =
        (chosen.filter (fun p => p.1 == s)).foldl
          (fun acc p =>
            match items.find? (fun i => i.id == p.2) with
            | some item => some item
            | none => acc)
          (t.slots s) := by
  intro chosen
  induction chosen with
  | nil => intro t s; rfl
  | cons p rest ih =>
    intro t s
    by_cases hp : p.1 = s
    · cases hfind : items.find? (fun i => i.id == p.2) with
      | none =>
        simp [applyChosenItems, List.foldl_cons, List.filter_cons, hp, hfind] at ih ⊢
        rw [ih]
      | some item =>
        simp [applyChosenItems, List.foldl_cons, List.filter_cons, hp, hfind] at ih ⊢
        rw [ih]
        simp [Template.insertSlot, hp]
    · cases hfind : items.find? (fun i => i.id == p.2) with
      | none =>
        simp [applyChosenItems, List.foldl_cons, List.filter_cons, hp, hfind] at ih ⊢
        rw [ih]
      | some item =>
        simp [applyChosenItems, List.foldl_cons, List.filter_cons, hp, hfind] at ih ⊢
        rw [ih]
        simp [Template.insertSlot, Ne.symm hp]

/-- The merge fold never turns a present entry into an absent one. -/
theorem merge_fold_preserves_some (items : List Item) :
    ∀ (l : List (ItemSlot × Int)) (acc : Option Item) (it : Item),
      acc = some it →
      ∃ it', l.foldl
          (fun acc p =>
            match items.find? (fun i => i.id == p.2) with
            | some item => some item
            | none => acc)
          acc = some it' := by
  intro l
  induction l with
  | nil => intro acc it h; exact ⟨it, by simpa using h⟩
  | cons p rest ih =>
    intro acc it h
    cases hfind : items.find? (fun i => i.id == p.2) with
    | none => simpa [List.foldl_cons, hfind] using ih acc it h
    | some item => simpa [List.foldl_cons, hfind] using ih (some item) item rfl

/-- C3 (counterexample to the claim as stated): a model containing the
fact `slot_chosen(21, 5)` with an item of id 5 in the candidate list,
but also containing a later fact `slot_chosen(21, 7)` with item 7 in
the list — the emitted Head entry is item 7, not the item with id 5. -/
theorem decoded_head_assignment_counterexample :
    chosen_items_from_model (Except.ok
        [Symbol.func "slot_chosen" [Symbol.num 21, Symbol.num 5],
         Symbol.func "slot_chosen" [Symbol.num 21, Symbol.num 7]]) =
      Except.ok [(ItemSlot.Head, 5), (ItemSlot.Head, 7)] ∧
      (applyChosenItems emptyTemplate [exItem5, exItem7]
          [(ItemSlot.Head, 5), (ItemSlot.Head, 7)]).slots ItemSlot.Head =
        some exItem7 ∧
      exItem5 ∈ [exItem5, exItem7] ∧ exItem5.id = 5 ∧ exItem7 ≠ exItem5 :=
  ⟨rfl, rfl, by simp, rfl, by decide⟩

/-- C3 (amended): if the decoded `slot_chosen` facts naming slot 21
(Head) are exactly the one fact `slot_chosen(21, 5)`, then the merged
template maps Head to the first candidate item with id 5 when one
exists, and keeps the input template's Head entry unchanged when no
candidate has id 5 (the fact is silently skipped). -/
theorem decoded_head_assignment (t : Template) (items : List Item)
    (syms : List Symbol) (chosen : List (ItemSlot × Int))
    (hdec : chosen_items_from_model (Except.ok syms) = Except.ok chosen)
    (honly : chosen.filter (fun p => p.1 == ItemSlot.Head) = [(ItemSlot.Head, 5)]) :
    (∀ it, items.find? (fun i => i.id == 5) = some it →
        (applyChosenItems t items chosen).slots ItemSlot.Head = some it) ∧
      (items.find? (fun i => i.id == 5) = none →
        (applyChosenItems t items chosen).slots ItemSlot.Head =
          t.slots ItemSlot.Head) := by
  constructor
  · intro it hit
    rw [applyChosenItems_slots_proj items chosen t ItemSlot.Head, honly]
    simp [List.foldl_cons, hit]
  · intro hnone
    rw [applyChosenItems_slots_proj items chosen t ItemSlot.Head, honly]
    simp [List.foldl_cons, hnone]

/-- Witness for C3 (amended) at a concrete decode and catalog. -/
theorem decoded_head_assignment_witness :
    (applyChosenItems emptyTemplate [exItem5] [(ItemSlot.Head, 5)]).slots
        ItemSlot.Head = some exItem5 ∧
      (applyChosenItems emptyTemplate [] [(ItemSlot.Head, 5)]).slots
        ItemSlot.Head = emptyTemplate.slots ItemSlot.Head :=
  ⟨(decoded_head_assignment emptyTemplate [exItem5]
      [Symbol.func "slot_chosen" [Symbol.num 21, Symbol.num 5]]
      [(ItemSlot.Head, 5)] rfl rfl).1 exItem5 rfl,
   (decoded_head_assignment emptyTemplate []
      [Symbol.func "slot_chosen" [Symbol.num 21, Symbol.num 5]]
      [(ItemSlot.Head, 5)] rfl rfl).2 rfl⟩

/-- C4: the template emitted for a decoded model differs from the input
template only at the slots named in the decoded `slot_chosen` facts:
every slot not named keeps its input entry unchanged, and no entry is
ever removed (a slot holding an item in the input still holds an item
in the output). -/
theorem newmodel_template_frame (t : Template) (items : List Item)
    (syms : List Symbol) (chosen : List (ItemSlot × Int))
    (hdec : chosen_items_from_model (Except.ok syms) = Except.ok chosen) :
    ∀ s : ItemSlot,
      ((∀ p ∈ chosen, p.1 ≠ s) →
        (applyChosenItems t items chosen).slots s = t.slots s) ∧
      (∀ it, t.slots s = some it →
        ∃ it', (applyChosenItems t items chosen).slots s = some it') := by
  intro s
  constructor
  · intro hno
    rw [applyChosenItems_slots_proj items chosen t s]
    have hfil : chosen.filter (fun p => p.1 == s) = [] := by
      rw [List.filter_eq_nil]
      intro p hp
      simp [hno p hp]
    rw [hfil]
    rfl
  · intro it h
    rw [applyChosenItems_slots_proj items chosen t s]
    exact merge_fold_preserves_some items _ (t.slots s) it h

/-- Witness for C4 at a concrete decode: the Ring entry of a template
whose Ring slot is filled survives, unchanged, a merge that only names
the Head slot. -/
theorem newmodel_template_frame_witness :
    (applyChosenItems filledTemplate [exItem5] [(ItemSlot.Head, 5)]).slots
        ItemSlot.Ring = filledTemplate.slots ItemSlot.Ring ∧
      ∃ it', (applyChosenItems filledTemplate [exItem5] [(ItemSlot.Head, 5)]).slots
        ItemSlot.Ring = some it' :=
  ⟨(newmodel_template_frame filledTemplate [exItem5]
      [Symbol.func "slot_chosen" [Symbol.num 21, Symbol.num 5]]
      [(ItemSlot.Head, 5)] rfl ItemSlot.Ring).1
      (by intro p hp; rw [List.mem_singleton] at hp; subst hp; decide),
   (newmodel_template_frame filledTemplate [exItem5]
      [Symbol.func "slot_chosen" [Symbol.num 21, Symbol.num 5]]
      [(ItemSlot.Head, 5)] rfl ItemSlot.Ring).2 exItem7 rfl⟩

/-- The optional `slot_taken` part never contributes to the count of a
`slot` fact. -/
theorem count_slotTakenPart_slot (slotId : Int) (entry : Option Item)
    (i : Int) (n : String) :
    (slotTakenPart slotId entry).count (AspAtom.slot i n) = 0 := by
  cases entry <;> simp [slotTakenPart]

/-- The optional `slot_taken` part of a different slot id never
contributes to the count of a `slot_taken` fact. -/
theorem count_slotTakenPart_taken_ne (slotId : Int) (entry : Option Item)
    (i j : Int) (h : slotId ≠ i) :
    (slotTakenPart slotId entry).count (AspAtom.slotTaken i j) = 0 := by
  cases entry <;> simp [slotTakenPart, List.count_cons, h]

/-- Distinct slot kinds have distinct ids. -/
theorem ItemSlot.id_inj : ∀ a b : ItemSlot, a.id = b.id → a = b := by
  intro a b h
  cases a <;> cases b <;> first | rfl | exact absurd h (by decide)

/-- Every slot kind occurs exactly once in the iteration order. -/
theorem iter_count_one : ∀ s : ItemSlot, ItemSlot.iter.count s = 1 := by
  intro s; cases s <;> rfl

/-- Counting over the flattened per-slot blocks is the sum of the
per-block counts. -/
theorem count_flatten_blocks (t : Template) (a : AspAtom) :
    ∀ l : List ItemSlot,
      ((l.map (slotBlock t)).flatten).count a =
        (l.map (fun q => (slotBlock t q).count a)).sum := by
  intro l
  induction l with
  | nil => rfl
  | cons q l ih => simp [List.count_append, ih]

/-- Summing a function that is zero away from one slot kind. -/
theorem sum_ite_single :
    ∀ (l : List ItemSlot) (s : ItemSlot) (x : Nat),
      (l.map (fun q => if q = s then x else 0)).sum = x * l.count s := by
  intro l s x
  induction l with
  | nil => simp
  | cons q l ih =>
    by_cases h : q = s
    · subst h
      simp [List.count_cons, ih, Nat.mul_add, Nat.add_comm]
    · simp [List.count_cons, ih, h]

/-- Per-block count of a `slot` fact: one in the block of its own slot
kind, zero elsewhere. -/
theorem count_block_slot (t : Template) (q s : ItemSlot) :
    (slotBlock t q).count (AspAtom.slot s.id s.name) = if q = s then 1 else 0 := by
  by_cases h : q = s
  · subst h
    simp [slotBlock, List.count_cons, count_slotTakenPart_slot]
  · have hid : q.id ≠ s.id := fun hc => h (ItemSlot.id_inj q s hc)
    simp [slotBlock, List.count_cons, count_slotTakenPart_slot, h, hid]

/-- Per-block count of a `slot_taken` fact: the own block's optional
part for the fact's slot kind, zero elsewhere. -/
theorem count_block_taken (t : Template) (q s : ItemSlot) (j : Int) :
    (slotBlock t q).count (AspAtom.slotTaken s.id j) =
      if q = s then (slotTakenPart s.id (t.slots s)).count (AspAtom.slotTaken s.id j)
      else 0 := by
  by_cases h : q = s
  · subst h
    simp [slotBlock, List.count_cons]
  · have hid : q.id ≠ s.id := fun hc => h (ItemSlot.id_inj q s hc)
    simp [slotBlock, List.count_cons, h,
      count_slotTakenPart_taken_ne q.id (t.slots q) s.id j hid]

/-- The full atom list counts one `slot` fact per slot kind. -/
theorem slot_atoms_count_slot (t : Template) (s : ItemSlot) :
    (slot_atoms t).count (AspAtom.slot s.id s.name) = 1 := by
  have h1 := count_flatten_blocks t (AspAtom.slot s.id s.name) ItemSlot.iter
  have h2 : (ItemSlot.iter.map (fun q => (slotBlock t q).count
      (AspAtom.slot s.id s.name))).sum = 1 := by
    simp only [count_block_slot]
    rw [sum_ite_single, iter_count_one]
  simp [slot_atoms, List.count_cons, h1, h2]

/-- The full atom list counts `slot_taken` facts for a slot kind
exactly as that slot's own optional part does. -/
theorem slot_atoms_count_taken (t : Template) (s : ItemSlot) (j : Int) :
    (slot_atoms t).count (AspAtom.slotTaken s.id j) =
      (slotTakenPart s.id (t.slots s)).count (AspAtom.slotTaken s.id j) := by
  have h1 := count_flatten_blocks t (AspAtom.slotTaken s.id j) ItemSlot.iter
  have h2 : (ItemSlot.iter.map (fun q => (slotBlock t q).count
      (AspAtom.slotTaken s.id j))).sum =
      (slotTakenPart s.id (t.slots s)).count (AspAtom.slotTaken s.id j) := by
    simp only [count_block_taken]
    rw [sum_ite_single, iter_count_one, Nat.mul_one]
  simp [slot_atoms, List.count_cons, h1, h2]

/-- C5: for every template and every slot kind, the slot-fact builder
emits exactly one `slot(id, name)` fact; it emits exactly one
`slot_taken(id, itemId)` fact for a slot holding an item in the
template, and no `slot_taken` fact at all for an empty slot. -/
theorem slot_atoms_per_slot (t : Template) (s : ItemSlot) :
    (slot_atoms t).count (AspAtom.slot s.id s.name) = 1 ∧
      (∀ it, t.slots s = some it →
        (slot_atoms t).count (AspAtom.slotTaken s.id it.id) = 1) ∧
      (t.slots s = none →
        ∀ j : Int, (slot_atoms t).count (AspAtom.slotTaken s.id j) = 0) := by
  refine ⟨slot_atoms_count_slot t s, ?_, ?_⟩
  · intro it h
    rw [slot_atoms_count_taken, h]
    simp [slotTakenPart, List.count_cons]
  · intro h j
    rw [slot_atoms_count_taken, h]
    rfl

/-- Witness for C5 at concrete templates: one `slot(21,Head)` fact in
an empty template's atoms, one `slot_taken(35, 7)` fact for the filled
Ring slot, and no `slot_taken(21, _)` fact for the empty Head slot. -/
theorem slot_atoms_per_slot_witness :
    (slot_atoms emptyTemplate).count
        (AspAtom.slot (ItemSlot.id ItemSlot.Head) (ItemSlot.name ItemSlot.Head)) = 1 ∧
      (slot_atoms filledTemplate).count
        (AspAtom.slotTaken (ItemSlot.id ItemSlot.Ring) exItem7.id) = 1 ∧
      (slot_atoms emptyTemplate).count
        (AspAtom.slotTaken (ItemSlot.id ItemSlot.Head) 9) = 0 :=
  ⟨(slot_atoms_per_slot emptyTemplate ItemSlot.Head).1,
   (slot_atoms_per_slot filledTemplate ItemSlot.Ring).2.1 exItem7 rfl,
   (slot_atoms_per_slot emptyTemplate ItemSlot.Head).2.2 rfl 9⟩

end Templess
